import Mathlib

/-
  Shallow embedding of the arxiv-zotero-connector core:
  the metadata mapping engine (src/metadata_config.py, src/arxiv_config.py)
  and the per-record ingestion pipeline with its run-level aggregation
  (src/connector.py).  Python dynamic values are modelled by an inductive
  Value type, Python exceptions by an explicit PyErr error type, and the
  external collaborators (Zotero API, PDF manager) by oracle inputs
  recorded in a PipeEnv structure.
-/

namespace ArxivZotero

/-- Dynamic values as they flow through the Python code: strings, lists,
string-keyed dictionaries, datetime objects (year, month, day) and None. -/
inductive Value where
  | vstr (s : String)
  | vlist (vs : List Value)
  | vdict (kvs : List (String × Value))
  | vdate (y m d : Nat)
  | vnone
deriving Repr

/-- A Python dict with string keys, in insertion order. -/
abbrev Dict := List (String × Value)

/-- The Python exceptions raised by the embedded code. -/
inductive PyErr where
  | valueError (msg : String)
  | attributeError (msg : String)
  | indexError
  | typeError
deriving Repr, DecidableEq

/-- Membership test of a key in a dict (the Python `k in d`). -/
def dictContains (d : Dict) (k : String) : Bool :=
  d.any (fun kv => kv.1 == k)

/-- Lookup of a present key (the Python `d[k]`; only used after a
containment check, absent keys give None here). -/
def dictGet (d : Dict) (k : String) : Value :=
  ((d.find? (fun kv => kv.1 == k)).map Prod.snd).getD .vnone

/-- Assignment `d[k] = v`: overwrite in place if the key exists, else
append, as a Python dict does. -/
def dictSet : Dict → String → Value → Dict
  | [], k, v => [(k, v)]
  | (k1, v1) :: rest, k, v =>
      if k1 == k then (k, v) :: rest else (k1, v1) :: dictSet rest k v

/-- Accumulator pass over the characters for the Python `s.split()`:
whitespace ends the token being built (if any), other characters extend
it. -/
def pyTokensAux : List Char → List Char → List String
  | [], acc => if acc.isEmpty then [] else [String.mk acc.reverse]
  | c :: cs, acc =>
      if c.isWhitespace then
        if acc.isEmpty then pyTokensAux cs []
        else String.mk acc.reverse :: pyTokensAux cs []
      else pyTokensAux cs (c :: acc)

/-- The Python `s.split()`: split on whitespace runs, no empty tokens. -/
def pyTokens (s : String) : List String :=
  pyTokensAux s.data []

/-- One Zotero creator dict, as built by transform_creators. -/
def creatorDict (firstName lastName : String) : Value :=
  .vdict [("creatorType", .vstr "author"),
          ("firstName", .vstr firstName),
          ("lastName", .vstr lastName)]

/-- The body of the transform_creators comprehension for one name:
`name.split()[0]` raises IndexError when there are no tokens, otherwise
the first token is firstName and the space-join of the rest is lastName. -/
def splitName (name : String) : Except PyErr (String × String) :=
  match pyTokens name with
  | [] => .error .indexError
  | t :: ts => .ok (t, String.intercalate " " ts)

/-- The transform_creators list comprehension over the author values, in
order, stopping at the first raising element; a non-string element fails
like the corresponding Python attribute error on split. -/
def creatorsOf : List Value → Except PyErr (List Value)
  | [] => .ok []
  | nv :: rest =>
      match (match nv with
             | .vstr name => (splitName name).map (fun p => creatorDict p.1 p.2)
             | _ => .error (.attributeError "split") : Except PyErr Value) with
      | .error e => .error e
      | .ok c => (creatorsOf rest).map (fun cs => c :: cs)

/-- MetadataMapper.transform_creators: map each author name string to a
creator dict; a non-list argument fails like the Python iteration error. -/
def transform_creators (v : Value) : Except PyErr Value :=
  match v with
  | .vlist names => (creatorsOf names).map Value.vlist
  | _ => .error .typeError

/-- Zero-pad a number to two digits (strftime %m, %d). -/
def pad2 (n : Nat) : String :=
  if n < 10 then "0" ++ toString n else toString n

/-- Zero-pad a year to four digits (strftime %Y). -/
def pad4 (n : Nat) : String :=
  if n < 10 then "000" ++ toString n
  else if n < 100 then "00" ++ toString n
  else if n < 1000 then "0" ++ toString n
  else toString n

/-- date.strftime with the %Y-%m-%d format string. -/
def fmtDate (y m d : Nat) : String :=
  pad4 y ++ "-" ++ pad2 m ++ "-" ++ pad2 d

/-- MetadataMapper.transform_date: `date.strftime(%Y-%m-%d)`.  Only a
datetime value has strftime; any other value (a string in particular)
raises AttributeError. -/
def transform_date (v : Value) : Except PyErr Value :=
  match v with
  | .vdate y m d => .ok (.vstr (fmtDate y m d))
  | _ => .error (.attributeError "strftime")

/-- MetadataMapper.transform_tags: each category becomes a tag dict,
order and duplicates preserved. -/
def transform_tags (v : Value) : Except PyErr Value :=
  match v with
  | .vlist cats => .ok (.vlist (cats.map (fun c => .vdict [("tag", c)])))
  | _ => .error .typeError

/-- The source_field entry of a mapping rule: a single key string, a list
of key strings, or None. -/
inductive SourceField where
  | sfNone
  | sfKey (s : String)
  | sfKeys (ks : List String)
deriving Repr, DecidableEq

/-- One rule of the mapping configuration (one value of the
ARXIV_TO_ZOTERO_MAPPING dict). -/
structure FieldRule where
  source_field : SourceField
  required : Bool := false
  transformer : Option String := none
  default_value : Option Value := none
deriving Repr

/-- The mapping configuration: target field name to rule, in the
iteration order of the Python dict. -/
abbrev MappingConfig := List (String × FieldRule)

/-- getattr(self, name) on MetadataMapper for the transformer names the
configurations use: only the three defined methods resolve, every other
name raises AttributeError. -/
def getTransformer (name : String) : Option (Value → Except PyErr Value) :=
  if name == "transform_creators" then some transform_creators
  else if name == "transform_date" then some transform_date
  else if name == "transform_tags" then some transform_tags
  else none

/-- The f-string rendering of a source_field in the required-field error
message. -/
def sfRepr : SourceField → String
  | .sfNone => "None"
  | .sfKey s => s
  | .sfKeys ks => "[" ++ String.intercalate ", " ks ++ "]"

/-- The ValueError message of map_metadata for a missing required field. -/
def requiredMsg (sf : SourceField) : String :=
  "Required field \x27" ++ sfRepr sf ++ "\x27 not found in source data"

/-- The per-rule body of the map_metadata loop, with the stored dict
factored out: error e = the loop raises e; ok none = the rule is skipped
(`continue`); ok (some v) = v is stored under the target field.
A list-valued source_field raises TypeError at the `not in` test
(unhashable key); a None source_field is never a key of the string-keyed
record, so a required rule with it raises and an optional one is skipped;
default_value is never consulted. -/
def ruleValue (record : Dict) (m : FieldRule) : Except PyErr (Option Value) :=
  match m.source_field with
  | .sfKeys _ => .error .typeError
  | .sfNone =>
      if m.required then .error (.valueError (requiredMsg .sfNone)) else .ok none
  | .sfKey s =>
      if dictContains record s then
        match m.transformer with
        | none => .ok (some (dictGet record s))
        | some tname =>
            match getTransformer tname with
            | none => .error (.attributeError tname)
            | some t => (t (dictGet record s)).map some
      else
        if m.required then .error (.valueError (requiredMsg (.sfKey s))) else .ok none

/-- The map_metadata loop over the remaining rules, accumulating the
mapped_data dict. -/
def mapFieldsAux (record : Dict) (acc : Dict) : MappingConfig → Except PyErr Dict
  | [] => .ok acc
  | (zf, m) :: rest =>
      match ruleValue record m with
      | .error e => .error e
      | .ok none => mapFieldsAux record acc rest
      | .ok (some v) => mapFieldsAux record (dictSet acc zf v) rest

/-- MetadataMapper.map_metadata: fold the rules over an empty mapped_data
dict; the surrounding try/except logs and re-raises, so the raised error
is returned unchanged. -/
def map_metadata (cfg : MappingConfig) (record : Dict) : Except PyErr Dict :=
  mapFieldsAux record [] cfg

/-- The archive rule of ARXIV_TO_ZOTERO_MAPPING: constant value for
arXiv, no source field, required, with a default_value. -/
def archiveRule : FieldRule :=
  { source_field := .sfNone, required := true, default_value := some (.vstr "arXiv") }

/-- The libraryCatalog rule of ARXIV_TO_ZOTERO_MAPPING. -/
def libraryCatalogRule : FieldRule :=
  { source_field := .sfNone, required := true, default_value := some (.vstr "arXiv.org") }

/-- The creators rule of ARXIV_TO_ZOTERO_MAPPING. -/
def creatorsRule : FieldRule :=
  { source_field := .sfKey "authors", required := true, transformer := some "transform_creators" }

/-- ARXIV_TO_ZOTERO_MAPPING from src/arxiv_config.py, in source order. -/
def ARXIV_TO_ZOTERO_MAPPING : MappingConfig :=
  [("title", { source_field := .sfKey "title", required := true,
               transformer := some "clean_latex_markup" }),
   ("creators", creatorsRule),
   ("url", { source_field := .sfKey "arxiv_url", required := true }),
   ("abstractNote", { source_field := .sfKey "abstract",
                      transformer := some "clean_latex_markup" }),
   ("date", { source_field := .sfKey "published", required := true,
              transformer := some "transform_date" }),
   ("DOI", { source_field := .sfKey "doi" }),
   ("journalAbbreviation", { source_field := .sfKey "journal_ref",
                             transformer := some "extract_journal_abbrev" }),
   ("publicationTitle", { source_field := .sfKey "journal_ref",
                          transformer := some "extract_journal_name" }),
   ("volume", { source_field := .sfKey "journal_ref",
                transformer := some "extract_volume" }),
   ("issue", { source_field := .sfKey "journal_ref",
               transformer := some "extract_issue" }),
   ("pages", { source_field := .sfKey "journal_ref",
               transformer := some "extract_pages" }),
   ("archiveID", { source_field := .sfKey "arxiv_id", required := true }),
   ("archive", archiveRule),
   ("archiveLocation", { source_field := .sfKey "primary_category" }),
   ("libraryCatalog", libraryCatalogRule),
   ("tags", { source_field := .sfKey "categories",
              transformer := some "transform_tags" }),
   ("extra", { source_field := .sfKeys ["comment", "version"],
               transformer := some "transform_extra" }),
   ("accessDate", { source_field := .sfNone, required := true,
                    transformer := some "get_current_date" }),
   ("rights", { source_field := .sfKey "license" })]

/-- The parsed response of zot.upload_attachments: the success, unchanged
and failure entry lists of the returned dict. -/
structure UploadResult where
  success : List String
  unchanged : List String
  failure : List String
deriving Repr

/-- The result-checking block after upload_attachments in
_process_paper_async: a falsy result (None / empty dict, modelled none)
returns False; otherwise success or unchanged entries give True, a
failure entry gives False, and a response with none of the three gives
False as well. -/
def classifyUpload : Option UploadResult → Bool
  | none => false
  | some r =>
      if r.success.length > 0 || r.unchanged.length > 0 then true
      else if r.failure.length > 0 then false
      else false

/-- The attachment template-and-upload block: the pipeline performs one
call of zot.upload_attachments, whose outcome is the head of the
recorded response list; an exception inside the block (error) is caught
and yields False, otherwise the response is classified. -/
def attachStep (uploads : List (Except Unit (Option UploadResult))) : Bool :=
  match uploads.head? with
  | none => false
  | some (.error _) => false
  | some (.ok res) => classifyUpload res

/-- Oracle inputs standing for the external collaborators of one
per-record pipeline run: the result of create_zotero_item (None when
creation failed or raised), the configured collection key, the outcome
of zot.addto_collection (False also when it raised), the outcome of
pdf_manager.download_pdf (none when it raised, otherwise the returned
(pdf_path, filename) pair), and the successive responses of
zot.upload_attachments. -/
structure PipeEnv where
  createResult : Option String
  collectionKey : Option String
  addOk : Bool
  downloadResult : Option (Option String × Option String)
  uploadResults : List (Except Unit (Option UploadResult))
deriving Repr

/-- Python truthiness of an optional string (None and the empty string
are falsy). -/
def truthyStr : Option String → Bool
  | none => false
  | some s => s != ""

/-- ArxivZoteroCollector.add_to_collection: True immediately when no
collection key is configured, otherwise the collaborator outcome (an
exception is caught and gives False). -/
def add_to_collection (env : PipeEnv) : Bool :=
  if truthyStr env.collectionKey then env.addOk else true

/-- ArxivZoteroCollector._process_paper_async.  A failed create returns
False.  A configured collection whose add fails returns False.  When
download_pdfs is True the download runs (an exception gives False via
the outer except); when it is False the later `if pdf_path and filename`
line reads the never-assigned pdf_path, and the resulting NameError is
caught by the outer except, returning False.  A truthy path and filename
lead to the single upload attempt; a falsy one returns False. -/
def processPaper (env : PipeEnv) (download_pdfs : Bool) : Bool :=
  match env.createResult with
  | none => false
  | some _ =>
      if truthyStr env.collectionKey && !(add_to_collection env) then false
      else
        if download_pdfs then
          match env.downloadResult with
          | none => false
          | some (pdfPath, filename) =>
              if truthyStr pdfPath && truthyStr filename then
                attachStep env.uploadResults
              else false
        else false

/-- ArxivZoteroCollector.run_collection_async over an already-discovered
record list: an empty list returns (0, 0); otherwise each record's
process_paper wrapper adds one to successful on an ok true outcome and
one to failed on an ok false outcome or on a raised exception, and the
final tally is returned after every record's task has finished. -/
def runCollectionAsync (papers : List α) (proc : α → Except Unit Bool) :
    Nat × Nat :=
  if papers.isEmpty then (0, 0)
  else
    papers.foldl
      (fun acc p =>
        match proc p with
        | .ok true => (acc.1 + 1, acc.2)
        | .ok false => (acc.1, acc.2 + 1)
        | .error _ => (acc.1, acc.2 + 1))
      (0, 0)

/-- Modelled from the spec, for comparison only (section 4.3 RetryPolicy,
which has no counterpart in the source): withRetry re-invokes the upload
operation on failure, consuming successive collaborator responses, up to
maxAttempts attempts, and succeeds as soon as one attempt's response
classifies as accepted. -/
def specRetry : Nat → List (Except Unit (Option UploadResult)) → Bool
  | 0, _ => false
  | _ + 1, [] => false
  | n + 1, a :: rest =>
      match a with
      | .ok res => if classifyUpload res then true else specRetry n rest
      | .error _ => specRetry n rest

/-- Whether a rule's source reference is not satisfied by the record: a
None source_field is never a key of the string-keyed record, a key is
unsatisfied when absent, and a list source_field makes the membership
test itself raise (never satisfied). -/
def ruleUnsatisfied : SourceField → Dict → Bool
  | .sfNone, _ => true
  | .sfKey s, record => !(dictContains record s)
  | .sfKeys _, _ => true

/-- A successful upload response: one accepted-new entry. -/
def acceptedResp : Option UploadResult := some ⟨["new"], [], []⟩

/-- A rejected upload response: one failure entry, nothing accepted. -/
def rejectedResp : Option UploadResult := some ⟨[], [], ["rej"]⟩

/-- A run in which creation succeeds, a collection is configured, the
collection add fails, and every later step would succeed. -/
def envC1 : PipeEnv :=
  ⟨some "ITEM1", some "COLL1", false,
   some (some "/tmp/a.pdf", some "a.pdf"), [.ok acceptedResp]⟩

/-- A run in which everything up to the upload succeeds and the upload
collaborator would fail once and then succeed on a second attempt. -/
def envC5 : PipeEnv :=
  ⟨some "ITEM2", none, true,
   some (some "/tmp/b.pdf", some "b.pdf"), [.ok rejectedResp, .ok acceptedResp]⟩

/-- A run reaching the upload step whose single response is rejected. -/
def envC6 : PipeEnv :=
  ⟨some "ITEM3", none, true,
   some (some "/tmp/c.pdf", some "c.pdf"), [.ok rejectedResp]⟩

/-- A run in which creation, collection add and (if it were attempted)
the artifact step would all succeed. -/
def envAllGood : PipeEnv :=
  ⟨some "ITEM4", some "COLL4", true,
   some (some "/tmp/d.pdf", some "d.pdf"), [.ok acceptedResp]⟩

/-- Helper: isOk on an error. -/
@[simp] theorem exceptIsOk_error {ε α : Type} (e : ε) :
    (Except.error e : Except ε α).isOk = false := rfl

/-- Helper: isOk on a success. -/
@[simp] theorem exceptIsOk_ok {ε α : Type} (a : α) :
    (Except.ok a : Except ε α).isOk = true := rfl

/-- Helper: map on an error. -/
@[simp] theorem exceptMap_error {ε α β : Type} (f : α → β) (e : ε) :
    (Except.error e : Except ε α).map f = .error e := rfl

/-- Helper: map on a success. -/
@[simp] theorem exceptMap_ok {ε α β : Type} (f : α → β) (a : α) :
    (Except.ok a : Except ε α).map f = .ok (f a) := rfl

/-- Helper: the attachment block reads only the first upload response. -/
theorem attachStep_take_one (l : List (Except Unit (Option UploadResult))) :
    attachStep (l.take 1) = attachStep l := by
  cases l <;> rfl

/-- Claim C1, counterexample: with an item created, a collection
configured and the add-to-collection call failing while every later
step would succeed, the pipeline returns False (the record is counted
failed, as the (0, 1) tally shows); flipping only the add outcome to
success makes the same run return True, so the collection-add failure
is what kills the record. -/
theorem collection_add_failure_cex :
    processPaper envC1 true = false ∧
    processPaper { envC1 with addOk := true } true = true ∧
    runCollectionAsync [0] (fun _ => .ok (processPaper envC1 true)) = (0, 1) :=
  ⟨rfl, rfl, rfl⟩

/-- Claim C1, amended: a collection-add failure is fatal, not non-fatal:
whenever the remote item was created, a collection key is configured
(truthy) and the add-to-collection outcome is a failure, the per-record
pipeline returns False immediately, whatever the artifact settings. -/
theorem collection_add_failure_fatal (env : PipeEnv) (dl : Bool)
    (h1 : env.createResult.isSome = true)
    (h2 : truthyStr env.collectionKey = true)
    (h3 : env.addOk = false) :
    processPaper env dl = false := by
  obtain ⟨cr, ck, ao, dr, ur⟩ := env
  cases cr with
  | none => simp at h1
  | some k =>
      subst h3
      simp [processPaper, add_to_collection, h2]

/-- Claim C1, witness for the amended statement at the concrete run. -/
theorem collection_add_failure_fatal_witness :
    processPaper envC1 true = false :=
  collection_add_failure_fatal envC1 true rfl rfl rfl

/-- Claim C4: when artifact download is not requested
(download_pdfs = False) the per-record pipeline never succeeds: the
later `if pdf_path and filename` line reads the never-assigned pdf_path
and the NameError is converted to a False outcome, even for a record
whose mapping, creation and collection add all succeeded (envAllGood). -/
theorem no_pdf_run_always_fails :
    (∀ env : PipeEnv, processPaper env false = false) ∧
    processPaper envAllGood false = false := by
  refine ⟨?_, rfl⟩
  intro env
  obtain ⟨cr, ck, ao, dr, ur⟩ := env
  cases cr <;> simp [processPaper]

/-- Claim C5, counterexample: the upload step is not wrapped in a retry
policy: with collaborator responses that reject the first attempt and
would accept a second one, the spec's bounded-retry semantics (three
attempts) succeeds, but the pipeline fails, because it performs a single
upload call. -/
theorem upload_no_retry_cex :
    processPaper envC5 true = false ∧
    specRetry 3 envC5.uploadResults = true :=
  ⟨rfl, rfl⟩

/-- Claim C5, amended: the attachment upload is invoked at most once:
the pipeline's outcome depends only on the first collaborator response,
so truncating the available responses to one changes nothing, and there
is no backoff or re-invocation. -/
theorem upload_single_attempt (env : PipeEnv) (dl : Bool) :
    processPaper env dl =
      processPaper { env with uploadResults := env.uploadResults.take 1 } dl := by
  obtain ⟨cr, ck, ao, dr, ur⟩ := env
  simp only [processPaper, attachStep_take_one, add_to_collection]

/-- Claim C9, counterexample: the date transformer is not idempotent: on
the already-normalized date string 2023-04-01 it raises AttributeError
(a string has no strftime), rather than returning the string unchanged. -/
theorem transform_date_not_idempotent_cex :
    transform_date (.vstr "2023-04-01") = .error (.attributeError "strftime") ∧
    transform_date (.vstr "2023-04-01") ≠ .ok (.vstr "2023-04-01") :=
  ⟨rfl, fun h => Except.noConfusion h⟩

/-- Claim C9, amended: the date transformer renders a datetime value as
YYYY-MM-DD, but its output type is outside its input domain: applied to
any string, normalized or not, it raises AttributeError, so applying it
twice never equals applying it once. -/
theorem transform_date_domain :
    (∀ y m d : Nat, transform_date (.vdate y m d) = .ok (.vstr (fmtDate y m d))) ∧
    (∀ s : String, transform_date (.vstr s) = .error (.attributeError "strftime")) :=
  ⟨fun _ _ _ => rfl, fun _ => rfl⟩

/-- Helper: the tally fold adds exactly one to one of the two counters
per record, from any starting pair. -/
theorem runFold_sum (proc : α → Except Unit Bool) :
    ∀ (papers : List α) (s f : Nat),
      ((papers.foldl
          (fun acc p =>
            match proc p with
            | .ok true => (acc.1 + 1, acc.2)
            | .ok false => (acc.1, acc.2 + 1)
            | .error _ => (acc.1, acc.2 + 1))
          (s, f)).1 +
        (papers.foldl
          (fun acc p =>
            match proc p with
            | .ok true => (acc.1 + 1, acc.2)
            | .ok false => (acc.1, acc.2 + 1)
            | .error _ => (acc.1, acc.2 + 1))
          (s, f)).2) = s + f + papers.length := by
  intro papers
  induction papers with
  | nil => intro s f; simp
  | cons p rest ih =>
      intro s f
      simp only [List.foldl_cons, List.length_cons]
      cases hp : proc p with
      | ok b => cases b <;> simp [hp] <;> rw [ih] <;> omega
      | error e => simp [hp]; rw [ih]; omega

/-- Claim C2: the orchestrator's tally is total (the Lean embedding of
run_collection_async is a function, mirroring that the Python never
raises: every per-record outcome, raised exceptions included, is folded
into the counters), successCount + failedCount equals the number of
records for every input, and the empty record list yields (0, 0). -/
theorem run_collection_tally (α : Type) (papers : List α)
    (proc : α → Except Unit Bool) :
    (runCollectionAsync papers proc).1 + (runCollectionAsync papers proc).2 =
      papers.length ∧
    runCollectionAsync ([] : List α) proc = (0, 0) := by
  constructor
  · cases papers with
    | nil => rfl
    | cons p rest =>
        have h := runFold_sum proc (p :: rest) 0 0
        simpa [runCollectionAsync] using h
  · rfl

/-- Claim C6: the upload-response classification accepts exactly the
responses carrying at least one accepted-new or accepted-unchanged
entry — a response with only rejected entries, and an empty or ambiguous
response (no result, or none of the three buckets populated), classify
as failure — and the record's pipeline outcome at the upload step is
exactly this classification of the single collaborator response. -/
theorem upload_classification :
    (∀ res : Option UploadResult,
      classifyUpload res = true ↔
        ∃ r, res = some r ∧ (r.success ≠ [] ∨ r.unchanged ≠ [])) ∧
    (∀ (env : PipeEnv) (res : Option UploadResult),
      env.createResult.isSome = true →
      (truthyStr env.collectionKey = false ∨ env.addOk = true) →
      (∃ p f, env.downloadResult = some (some p, some f) ∧ p ≠ "" ∧ f ≠ "") →
      env.uploadResults = [.ok res] →
      processPaper env true = classifyUpload res) := by
  constructor
  · intro res
    cases res with
    | none => simp [classifyUpload]
    | some r =>
        obtain ⟨s, u, f⟩ := r
        cases s <;> cases u <;> simp [classifyUpload]
  · intro env res h1 h2 h3 h4
    obtain ⟨cr, ck, ao, dr, ur⟩ := env
    dsimp only at h1 h2 h3 h4
    cases cr with
    | none => simp at h1
    | some k =>
        obtain ⟨p, f, hdr, hp, hf⟩ := h3
        subst hdr h4
        have hguard : (truthyStr ck &&
            !(add_to_collection ⟨some k, ck, ao, some (some p, some f),
              [Except.ok res]⟩)) = false := by
          cases hck : truthyStr ck with
          | false => simp [hck]
          | true =>
              have hao : ao = true := by
                rcases h2 with h2 | h2
                · rw [hck] at h2; cases h2
                · exact h2
              simp [add_to_collection, hck, hao]
        simp only [processPaper]
        rw [hguard]
        simp [truthyStr, hp, hf, attachStep]

/-- Claim C6, witness: a concrete run whose single upload response is
rejected-only gives a failed record, the classification of that
response. -/
theorem upload_classification_witness :
    processPaper envC6 true = false :=
  (upload_classification.2 envC6 rejectedResp rfl (Or.inl rfl)
    ⟨"/tmp/c.pdf", "c.pdf", rfl, by decide, by decide⟩ rfl).trans rfl

/-- Helper: on author names that all have at least one whitespace token,
the creators comprehension succeeds and splits first token / joined
rest. -/
theorem creatorsOf_ok (names : List String)
    (h : ∀ n ∈ names, pyTokens n ≠ []) :
    creatorsOf (names.map Value.vstr) =
      .ok (names.map (fun n =>
        creatorDict ((pyTokens n).headD "")
          (String.intercalate " " (pyTokens n).tail))) := by
  induction names with
  | nil => rfl
  | cons n rest ih =>
      have hn := h n (List.mem_cons_self n rest)
      cases htoks : pyTokens n with
      | nil => exact absurd htoks hn
      | cons t ts =>
          have ihr := ih (fun m hm => h m (List.mem_cons_of_mem n hm))
          simp [creatorsOf, splitName, htoks, ihr, Except.map]

/-- Claim C8: for every author list whose names each contain at least
one whitespace-separated token, the name-splitting transformer maps each
name to a creator whose given name is the first token and whose family
name is the remaining tokens joined by single spaces; a single-token
name yields an empty family name rather than an error. -/
theorem transform_creators_name_split :
    (∀ names : List String, (∀ n ∈ names, pyTokens n ≠ []) →
      transform_creators (.vlist (names.map Value.vstr)) =
        .ok (.vlist (names.map (fun n =>
          creatorDict ((pyTokens n).headD "")
            (String.intercalate " " (pyTokens n).tail))))) ∧
    (∀ (n : String) (t : String), pyTokens n = [t] →
      String.intercalate " " (pyTokens n).tail = "") := by
  constructor
  · intro names h
    simp [transform_creators, creatorsOf_ok names h, Except.map]
  · intro n t ht
    rw [ht]
    rfl

/-- Claim C8, witness: Ada Lovelace splits into given Ada and family
Lovelace; the single token Madonna gives given Madonna and an empty
family name. -/
theorem transform_creators_name_split_witness :
    transform_creators (.vlist [.vstr "Ada Lovelace", .vstr "Madonna"]) =
      .ok (.vlist [creatorDict "Ada" "Lovelace", creatorDict "Madonna" ""]) := by
  have h := transform_creators_name_split.1 ["Ada Lovelace", "Madonna"] (by decide)
  exact h

/-- Claim C3: map_metadata never consults a rule's default_value — the
ruleValue outcome is invariant under replacing it — so the configured
defaults are dead: the archive rule of ARXIV_TO_ZOTERO_MAPPING
(source_field None, required, default arXiv) makes the whole mapping
raise ValueError instead of emitting the default, and an optional rule
with a default is silently skipped instead of defaulted. -/
theorem default_value_ignored :
    (∀ (record : Dict) (m : FieldRule) (dv : Option Value),
      ruleValue record { m with default_value := dv } = ruleValue record m) ∧
    map_metadata [("archive", archiveRule)] [] =
      .error (.valueError "Required field \x27None\x27 not found in source data") ∧
    map_metadata [("x", { source_field := .sfNone,
                          default_value := some (.vstr "d") })] [] = .ok [] ∧
    ("archive", archiveRule) ∈ ARXIV_TO_ZOTERO_MAPPING := by
  refine ⟨?_, rfl, rfl, ?_⟩
  · intro record m dv
    cases m
    rfl
  · exact List.Mem.tail _ (List.Mem.tail _ (List.Mem.tail _ (List.Mem.tail _
      (List.Mem.tail _ (List.Mem.tail _ (List.Mem.tail _ (List.Mem.tail _
      (List.Mem.tail _ (List.Mem.tail _ (List.Mem.tail _ (List.Mem.tail _
      (List.Mem.head _))))))))))))

/-- Helper: a required rule whose source reference is unsatisfied makes
its rule step raise. -/
theorem ruleValue_error_of_required_missing (record : Dict) (m : FieldRule)
    (hreq : m.required = true)
    (hmiss : ruleUnsatisfied m.source_field record = true) :
    (ruleValue record m).isOk = false := by
  obtain ⟨sf, rq, tr, dv⟩ := m
  dsimp only at hreq hmiss
  subst hreq
  cases sf with
  | sfKeys ks => simp [ruleValue]
  | sfNone => simp [ruleValue]
  | sfKey s =>
      simp only [ruleUnsatisfied, Bool.not_eq_true'] at hmiss
      simp [ruleValue, hmiss]

/-- Helper: the field loop raises as soon as any of its rules raises on
the record, whatever was accumulated before. -/
theorem mapFieldsAux_error_of_mem (record : Dict) (zf : String) (m : FieldRule)
    (hfail : (ruleValue record m).isOk = false) :
    ∀ cfg : MappingConfig, (zf, m) ∈ cfg →
      ∀ acc, (mapFieldsAux record acc cfg).isOk = false := by
  intro cfg
  induction cfg with
  | nil => intro hmem; exact absurd hmem (List.not_mem_nil _)
  | cons e rest ih =>
      intro hmem acc
      obtain ⟨zf1, m1⟩ := e
      rw [List.mem_cons] at hmem
      rcases hmem with heq | hmem2
      · cases heq
        cases hrv : ruleValue record m with
        | error e2 => simp [mapFieldsAux, hrv]
        | ok v => rw [hrv] at hfail; simp at hfail
      · cases hrv : ruleValue record m1 with
        | error e2 => simp [mapFieldsAux, hrv]
        | ok v =>
            cases v with
            | none =>
                simp only [mapFieldsAux, hrv]
                exact ih hmem2 acc
            | some w =>
                simp only [mapFieldsAux, hrv]
                exact ih hmem2 _

/-- Helper: when every rule step succeeds on the record, the field loop
succeeds from any accumulator. -/
theorem mapFieldsAux_ok_of_all_ok (record : Dict) :
    ∀ cfg : MappingConfig,
      (∀ e ∈ cfg, (ruleValue record e.2).isOk = true) →
      ∀ acc, (mapFieldsAux record acc cfg).isOk = true := by
  intro cfg
  induction cfg with
  | nil => intro _ acc; rfl
  | cons e rest ih =>
      intro h acc
      obtain ⟨zf1, m1⟩ := e
      have he := h (zf1, m1) (List.mem_cons_self _ _)
      dsimp only at he
      have hrest := fun e hm => h e (List.mem_cons_of_mem _ hm)
      cases hrv : ruleValue record m1 with
      | error e2 => rw [hrv] at he; simp at he
      | ok v =>
          cases v with
          | none =>
              simp only [mapFieldsAux, hrv]
              exact ih hrest acc
          | some w =>
              simp only [mapFieldsAux, hrv]
              exact ih hrest _

/-- Helper: when the rules before a required rule with an absent key all
succeed, the loop stops at that rule with the naming ValueError. -/
theorem mapFieldsAux_first_required (record : Dict) :
    ∀ (pre : MappingConfig) (zf s : String) (m : FieldRule)
      (post : MappingConfig),
      m.source_field = .sfKey s → m.required = true →
      dictContains record s = false →
      (∀ e ∈ pre, (ruleValue record e.2).isOk = true) →
      ∀ acc, mapFieldsAux record acc (pre ++ (zf, m) :: post) =
        .error (.valueError (requiredMsg (.sfKey s))) := by
  intro pre
  induction pre with
  | nil =>
      intro zf s m post hsf hreq hmiss _ acc
      obtain ⟨sf, rq, tr, dv⟩ := m
      dsimp only at hsf hreq
      subst hsf hreq
      simp [mapFieldsAux, ruleValue, hmiss]
  | cons e rest ih =>
      intro zf s m post hsf hreq hmiss hpre acc
      obtain ⟨zf1, m1⟩ := e
      have he := hpre (zf1, m1) (List.mem_cons_self _ _)
      dsimp only at he
      have hrest := fun e hm => hpre e (List.mem_cons_of_mem _ hm)
      cases hrv : ruleValue record m1 with
      | error e2 => rw [hrv] at he; simp at he
      | ok v =>
          cases v with
          | none =>
              simp only [List.cons_append, mapFieldsAux, hrv]
              exact ih zf s m post hsf hreq hmiss hrest acc
          | some w =>
              simp only [List.cons_append, mapFieldsAux, hrv]
              exact ih zf s m post hsf hreq hmiss hrest _

/-- Claim C7: a required rule whose source reference the record does not
satisfy makes the whole mapping fail (so no partial result is returned:
the error carries no field mapping); when the rules before such a
required rule all succeed, the failure is immediate, a ValueError naming
the missing source field; and conversely, when every rule step succeeds
on the record (required fields present, configured transformers defined
and succeeding on their inputs), the mapping succeeds. -/
theorem map_metadata_required_fail_fast :
    (∀ (cfg : MappingConfig) (record : Dict) (zf : String) (m : FieldRule),
      (zf, m) ∈ cfg → m.required = true →
      ruleUnsatisfied m.source_field record = true →
      (map_metadata cfg record).isOk = false) ∧
    (∀ (pre post : MappingConfig) (zf s : String) (m : FieldRule)
      (record : Dict),
      m.source_field = .sfKey s → m.required = true →
      dictContains record s = false →
      (∀ e ∈ pre, (ruleValue record e.2).isOk = true) →
      map_metadata (pre ++ (zf, m) :: post) record =
        .error (.valueError (requiredMsg (.sfKey s)))) ∧
    (∀ (cfg : MappingConfig) (record : Dict),
      (∀ e ∈ cfg, (ruleValue record e.2).isOk = true) →
      (map_metadata cfg record).isOk = true) := by
  refine ⟨?_, ?_, ?_⟩
  · intro cfg record zf m hmem hreq hmiss
    exact mapFieldsAux_error_of_mem record zf m
      (ruleValue_error_of_required_missing record m hreq hmiss) cfg hmem []
  · intro pre post zf s m record hsf hreq hmiss hpre
    exact mapFieldsAux_first_required record pre zf s m post hsf hreq hmiss hpre []
  · intro cfg record h
    exact mapFieldsAux_ok_of_all_ok record cfg h []

/-- Claim C7, witness: mapping an empty record against the url rule of
ARXIV_TO_ZOTERO_MAPPING fails at once with the ValueError naming the
missing arxiv_url source field. -/
theorem map_metadata_required_fail_fast_witness :
    map_metadata
      [("url", { source_field := .sfKey "arxiv_url", required := true })] [] =
      .error (.valueError
        "Required field \x27arxiv_url\x27 not found in source data") := by
  have h := map_metadata_required_fail_fast.2.1 [] [] "url" "arxiv_url"
    { source_field := .sfKey "arxiv_url", required := true } []
    rfl rfl rfl (fun e he => absurd he (List.not_mem_nil e))
  exact h

/-- Helper: the creators comprehension raises when some author name has
no whitespace tokens. -/
theorem creatorsOf_err : ∀ names : List String,
    (∃ n ∈ names, pyTokens n = []) →
    (creatorsOf (names.map Value.vstr)).isOk = false := by
  intro names
  induction names with
  | nil =>
      intro h
      obtain ⟨n, hn, _⟩ := h
      exact absurd hn (List.not_mem_nil n)
  | cons n rest ih =>
      intro h
      cases htoks : pyTokens n with
      | nil => simp [creatorsOf, splitName, htoks]
      | cons t ts =>
          have hrest : ∃ m ∈ rest, pyTokens m = [] := by
            obtain ⟨m, hm, hmt⟩ := h
            rw [List.mem_cons] at hm
            rcases hm with rfl | hm2
            · rw [htoks] at hmt; cases hmt
            · exact ⟨m, hm2, hmt⟩
          have ihr := ih hrest
          cases hc : creatorsOf (List.map Value.vstr rest) with
          | error e2 => simp [creatorsOf, splitName, htoks, hc, Except.map]
          | ok cs => rw [hc] at ihr; simp at ihr

/-- Claim C10: an author list containing a token-less string (empty or
whitespace-only) makes the name-splitting transformer raise IndexError
rather than produce a creator with empty names, and mapping a record
whose authors field contains such a string through the creators rule of
ARXIV_TO_ZOTERO_MAPPING fails. -/
theorem empty_author_name_fails :
    ∀ names : List String, (∃ n ∈ names, pyTokens n = []) →
      (transform_creators (.vlist (names.map Value.vstr))).isOk = false ∧
      (map_metadata [("creators", creatorsRule)]
        [("authors", .vlist (names.map Value.vstr))]).isOk = false := by
  intro names h
  have hc := creatorsOf_err names h
  cases hco : creatorsOf (List.map Value.vstr names) with
  | ok cs => rw [hco] at hc; simp at hc
  | error e2 =>
      constructor
      · simp [transform_creators, hco, Except.map]
      · simp [map_metadata, mapFieldsAux, ruleValue, creatorsRule,
              getTransformer, dictContains, dictGet, transform_creators,
              hco, Except.map]

/-- Claim C10, witness: the empty author name string makes both the
transformer and the surrounding mapping fail. -/
theorem empty_author_name_fails_witness :
    (transform_creators (.vlist [.vstr ""])).isOk = false ∧
    (map_metadata [("creators", creatorsRule)]
      [("authors", .vlist [.vstr ""])]).isOk = false :=
  empty_author_name_fails [""] ⟨"", by decide, rfl⟩

end ArxivZotero
